import Mathlib

/-!
Shallow embedding of `src/utils/diagrams.py` from the robust-maze-learning
repository: a utility generating two static architecture diagrams (DTNet and
ITNet) by issuing drawing primitives at hand-picked coordinates.

Coordinate representation: every geometric literal in the source is an exact
multiple of 0.01 data units, and the only division performed is halving, so
all coordinates are represented exactly as integers in units of 1/200 of a
data unit.  The helper `units n` converts a length given in hundredths of a
data unit (the precision of the source literals) into this representation;
for example the source literal `3.5` is written `units 350`.  Line widths are
represented in tenths of a point (`2.5` becomes `25`) and font sizes in whole
points; both are style data, never entering the coordinate arithmetic.

The matplotlib calls are modelled by the `Prim` datatype: each `ax.add_patch`,
`ax.text`, `ax.plot` and `ax.annotate` call of the source becomes one emitted
primitive, in source order.  `FancyBboxPatch` takes its lower-left corner,
mirrored by `Prim.rect`; `ax.annotate` with arrow properties draws an arrow
from `xytext` to `xy`, mirrored by `Prim.arrow`.  Texts whose color keyword is
absent in the source carry `none`.
-/

namespace RobustMaze

/-- Converts a coordinate given in hundredths of a data unit into the exact
integer representation (1/200 data-unit grid) used throughout this file. -/
def units (hundredths : ℤ) : ℤ := 2 * hundredths

/-- Color scheme `COLORS` from the source, as a mapping from role name to hex
color value. -/
def COLORS (k : String) : String :=
  if k = "input" then ("#E3F2FD")
  else if k = "projection" then ("#90CAF9")
  else if k = "recur" then ("#4CAF50")
  else if k = "residual" then ("#A5D6A7")
  else if k = "head" then ("#FFE0B2")
  else if k = "output" then ("#FFF3E0")
  else if k = "arrow" then ("#37474F")
  else if k = "concat" then ("#7B1FA2")
  else if k = "text" then ("#212121")
  else ("#757575")

/-- One drawing primitive issued to the rendering surface.  `rect` records the
lower-left corner, width and height exactly as passed to `FancyBboxPatch`;
`circle` records center and radius as passed to `plt.Circle`; `arrow` covers
both `FancyArrowPatch` and `ax.annotate` arrows (start point first, head
second); `line` is one `ax.plot` segment; `text` is one `ax.text` call. -/
inductive Prim where
  | rect (x y w h : ℤ) (facecolor edgecolor : String) (lw : ℤ) (dashed : Bool)
  | circle (x y r : ℤ) (facecolor edgecolor : String) (lw : ℤ)
  | arrow (x1 y1 x2 y2 : ℤ) (color : String) (lw : ℤ)
  | line (x1 y1 x2 y2 : ℤ) (color : String) (lw : ℤ)
  | text (x y : ℤ) (s : String) (fontsize : ℤ) (color : Option String)
  deriving DecidableEq

/-- The `_draw_block` helper of the source: a rounded rectangle anchored at its
center `(x, y)` followed by the title text, and, when the subtitle string is
truthy (present and non-empty, matching the Python `if subtitle:` test), a
raised title and a lowered subtitle instead of a centered title. -/
def draw_block (x y w h : ℤ) (title : String) (subtitle : Option String)
    (color : String) : List Prim :=
  Prim.rect (x - w / 2) (y - h / 2) w h color ("#424242") 25 false ::
  (if subtitle.getD ("") ≠ "" then
    [Prim.text x (y + units 15) title 13 (some (COLORS ("text"))),
     Prim.text x (y - units 20) (subtitle.getD ("")) 10 (some (COLORS ("gray")))]
  else
    [Prim.text x y title 13 (some (COLORS ("text")))])

/-- The `_draw_arrow` helper of the source: a simple arrow between two points
in the arrow color with line width 2. -/
def draw_arrow (x1 y1 x2 y2 : ℤ) : Prim :=
  Prim.arrow x1 y1 x2 y2 (COLORS ("arrow")) 20

namespace DT

/-- Main-flow vertical coordinate (`y = 3.5`). -/
def y : ℤ := units 350

/-- Block width (`bw = 1.4`). -/
def bw : ℤ := units 140

/-- Block height (`bh = 1.0`). -/
def bh : ℤ := units 100

def input_x : ℤ := units 100

def proj_x : ℤ := units 280

def rec_x : ℤ := units 680

def rec_w : ℤ := units 520

def rec_h : ℤ := units 220

def concat_x : ℤ := units 500

def residual_x : ℤ := units 800

/-- Vertical level of the horizontal feedback-loop segment
(`loop_y_bottom = y - rec_h / 2 + 0.15`). -/
def loop_y_bottom : ℤ := y - rec_h / 2 + units 15

/-- Start of the feedback drop (`residual_bottom = y - 0.4 - 0.08`). -/
def residual_bottom : ℤ := y - units 40 - units 8

def concat_arrow_x_green : ℤ := concat_x + units 10

def head_x : ℤ := units 1060

def output_x : ℤ := units 1240

/-- Vertical level of the injection path (`inject_y = y - 1.8`). -/
def inject_y : ℤ := y - units 180

def concat_arrow_x_purple : ℤ := concat_x - units 10

def input_bottom : ℤ := y - bh / 2 - units 8

def output_bottom : ℤ := y - bh / 2 - units 8

/-- Label of the recurrent-block bounding region in the DTNet diagram. -/
def rec_label : String := "Recurrent Block  (× $K$ iterations)"

/-- The complete sequence of drawing primitives emitted by
`generate_dt_net_diagram`, in source order. -/
def elements : List Prim :=
  [Prim.text (units 700) (units 550) ("DTNet") 18 none]
  ++ draw_block input_x y bw bh ("Input") (some ("H×W\n3 ch")) (COLORS ("input"))
  ++ [draw_arrow (input_x + bw / 2) y (units 280 - bw / 2) y]
  ++ draw_block proj_x y bw bh ("Projection") (some ("Conv2d, ReLU\n3→128 ch"))
      (COLORS ("projection"))
  ++ [Prim.rect (rec_x - rec_w / 2) (y - rec_h / 2) rec_w rec_h ("#E8F5E9")
        (COLORS ("recur")) 25 true,
      Prim.text rec_x (y + rec_h / 2 + units 20) rec_label 12 (some (COLORS ("recur"))),
      Prim.circle concat_x y (units 22) (COLORS ("concat")) ("#424242") 15,
      Prim.text concat_x y ("+") 14 (some ("white")),
      draw_arrow (proj_x + bw / 2) y (concat_x - units 22) y,
      draw_arrow (concat_x + units 22) y (units 590) y]
  ++ draw_block (units 650) y (units 110) (units 80) ("Conv") (some ("131→128 ch"))
      (COLORS ("residual"))
  ++ [draw_arrow (units 705) y (units 745) y]
  ++ draw_block residual_x y (units 100) (units 80) ("Residual") (some ("2× ResBlock"))
      (COLORS ("residual"))
  ++ [Prim.line residual_x residual_bottom residual_x loop_y_bottom (COLORS ("recur")) 20,
      Prim.line residual_x loop_y_bottom concat_arrow_x_green loop_y_bottom
        (COLORS ("recur")) 20,
      Prim.arrow concat_arrow_x_green loop_y_bottom concat_arrow_x_green (y - units 22)
        (COLORS ("recur")) 20,
      Prim.text (units 680) (loop_y_bottom + units 18) ("Latent") 9
        (some (COLORS ("recur")))]
  ++ draw_block head_x y bw bh ("Head") (some ("3× Conv2d\n128→32→8→2 ch"))
      (COLORS ("head"))
  ++ [draw_arrow (residual_x + units 50) y (head_x - bw / 2) y]
  ++ draw_block output_x y bw bh ("Prediction") (some ("Argmax\nH×W, 2 cls"))
      (COLORS ("output"))
  ++ [draw_arrow (head_x + bw / 2) y (output_x - bw / 2) y,
      Prim.line input_x input_bottom input_x inject_y (COLORS ("concat")) 25,
      Prim.line input_x inject_y output_x inject_y (COLORS ("concat")) 25,
      Prim.arrow concat_arrow_x_purple inject_y concat_arrow_x_purple (y - units 22)
        (COLORS ("concat")) 25,
      Prim.arrow output_x inject_y output_x output_bottom (COLORS ("concat")) 25,
      Prim.text (units 300) (inject_y - units 35) ("Input Injection (every iteration)")
        10 (some ("white")),
      Prim.text (output_x - units 460) (inject_y - units 35) ("Mask (zero out walls)")
        10 (some ("white"))]

end DT

namespace IT

/-- Main-flow vertical coordinate (`y = 3.5`). -/
def y : ℤ := units 350

/-- Block width (`bw = 1.4`). -/
def bw : ℤ := units 140

/-- Block height (`bh = 1.0`). -/
def bh : ℤ := units 100

def input_x : ℤ := units 100

def proj_x : ℤ := units 280

def rec_x : ℤ := units 680

def rec_w : ℤ := units 520

def rec_h : ℤ := units 220

def concat_x : ℤ := units 500

def residual_x : ℤ := units 800

/-- Vertical level of the horizontal feedback-loop segment
(`loop_y_bottom = y - rec_h / 2 + 0.15`). -/
def loop_y_bottom : ℤ := y - rec_h / 2 + units 15

/-- Start of the feedback drop (`residual_bottom = y - 0.4 - 0.08`). -/
def residual_bottom : ℤ := y - units 40 - units 8

def concat_arrow_x_green : ℤ := concat_x + units 10

def head_x : ℤ := units 1060

def output_x : ℤ := units 1240

/-- Vertical level of the injection path (`inject_y = y - 1.8`). -/
def inject_y : ℤ := y - units 180

def concat_arrow_x_purple : ℤ := concat_x - units 10

def input_bottom : ℤ := y - bh / 2 - units 8

def output_bottom : ℤ := y - bh / 2 - units 8

/-- Label of the recurrent-block bounding region in the ITNet diagram; the
braces of the original TeX source are written with character escapes. -/
def rec_label : String :=
  "Recurrent Block  (× $K$ iters, until $\\|z^\x7b(k)\x7d - z^\x7b(k-1)\x7d\\| < \\epsilon$)"

/-- The complete sequence of drawing primitives emitted by
`generate_it_net_diagram`, in source order. -/
def elements : List Prim :=
  [Prim.text (units 700) (units 550) ("ITNet") 18 none]
  ++ draw_block input_x y bw bh ("Input") (some ("H×W\n3 ch")) (COLORS ("input"))
  ++ [draw_arrow (input_x + bw / 2) y (units 280 - bw / 2) y]
  ++ draw_block proj_x y bw bh ("Projection") (some ("Conv2d, ReLU\n3→128 ch"))
      (COLORS ("projection"))
  ++ [Prim.rect (rec_x - rec_w / 2) (y - rec_h / 2) rec_w rec_h ("#E8F5E9")
        (COLORS ("recur")) 25 true,
      Prim.text rec_x (y + rec_h / 2 + units 20) rec_label 12 (some (COLORS ("recur"))),
      Prim.circle concat_x y (units 22) (COLORS ("concat")) ("#424242") 15,
      Prim.text concat_x y ("+") 14 (some ("white")),
      draw_arrow (proj_x + bw / 2) y (concat_x - units 22) y,
      draw_arrow (concat_x + units 22) y (units 590) y]
  ++ draw_block (units 650) y (units 110) (units 80) ("Conv") (some ("131→128 ch"))
      (COLORS ("residual"))
  ++ [draw_arrow (units 705) y (units 745) y]
  ++ draw_block residual_x y (units 100) (units 80) ("Residual") (some ("4× ResBlock"))
      (COLORS ("residual"))
  ++ [Prim.line residual_x residual_bottom residual_x loop_y_bottom (COLORS ("recur")) 20,
      Prim.line residual_x loop_y_bottom concat_arrow_x_green loop_y_bottom
        (COLORS ("recur")) 20,
      Prim.arrow concat_arrow_x_green loop_y_bottom concat_arrow_x_green (y - units 22)
        (COLORS ("recur")) 20,
      Prim.text (units 680) (loop_y_bottom + units 18) ("Latent") 9
        (some (COLORS ("recur")))]
  ++ draw_block head_x y bw bh ("Head") (some ("3× Conv2d\n128→32→8→2 ch"))
      (COLORS ("head"))
  ++ [draw_arrow (residual_x + units 50) y (head_x - bw / 2) y]
  ++ draw_block output_x y bw bh ("Prediction") (some ("Argmax\nH×W, 2 cls"))
      (COLORS ("output"))
  ++ [draw_arrow (head_x + bw / 2) y (output_x - bw / 2) y,
      Prim.line input_x input_bottom input_x inject_y (COLORS ("concat")) 25,
      Prim.line input_x inject_y output_x inject_y (COLORS ("concat")) 25,
      Prim.arrow concat_arrow_x_purple inject_y concat_arrow_x_purple (y - units 22)
        (COLORS ("concat")) 25,
      Prim.arrow output_x inject_y output_x output_bottom (COLORS ("concat")) 25,
      Prim.text (units 300) (inject_y - units 35) ("Input Injection (every iteration)")
        10 (some ("white")),
      Prim.text (output_x - units 460) (inject_y - units 35) ("Mask (zero out walls)")
        10 (some ("white"))]

end IT

/-! ### Filesystem model

`Path.parent.mkdir(parents=True, exist_ok=True)` and `plt.savefig` are
external collaborators; they are modelled as pure state transformers over a
minimal filesystem: a path is its list of components, the directory tree is
the list of directories created so far, and the file store maps paths to the
list of primitives rendered into them, the most recent write first
(last-writer-wins, no locking, mirroring the overwrite semantics of the
source). -/

/-- Filesystem state: existing directories and written files. -/
structure FS where
  dirs : List (List String)
  files : List (List String × List Prim)
  deriving DecidableEq

/-- The parent of a path, as in `pathlib.Path.parent`. -/
def parentDir (p : List String) : List String := p.dropLast

/-- Creates one directory if it is absent (a single `mkdir` with
`exist_ok=True`: never an error, no duplicate creation). -/
def addDir (acc : List (List String)) (d : List String) : List (List String) :=
  if d ∈ acc then acc else acc ++ [d]

/-- The directory-ensuring step `parent.mkdir(parents=True, exist_ok=True)`:
creates the directory `d` and all its missing ancestors, outermost first. -/
def mkdir_parents (d : List String) (dirs : List (List String)) :
    List (List String) :=
  d.inits.foldl addDir dirs

/-- Serialization of the finished canvas to a path (`plt.savefig`): records
the rendered primitives at the path, shadowing any previous write. -/
def savefig (p : List String) (content : List Prim)
    (files : List (List String × List Prim)) : List (List String × List Prim) :=
  (p, content) :: files

/-- The DTNet emitter `generate_dt_net_diagram`: ensures the parent directory
of the output path exists, composes the fixed DTNet geometry, and writes it to
the output path. -/
def generate_dt_net_diagram (output_path : List String) (fs : FS) : FS :=
  { dirs := mkdir_parents (parentDir output_path) fs.dirs
    files := savefig output_path DT.elements fs.files }

/-- The ITNet emitter `generate_it_net_diagram`: ensures the parent directory
of the output path exists, composes the fixed ITNet geometry, and writes it to
the output path. -/
def generate_it_net_diagram (output_path : List String) (fs : FS) : FS :=
  { dirs := mkdir_parents (parentDir output_path) fs.dirs
    files := savefig output_path IT.elements fs.files }

/-- Default DTNet output path used by the standalone entry point. -/
def dt_default_path : List String := [("outputs"), ("diagrams"), ("dt_net_architecture.pdf")]

/-- Default ITNet output path used by the standalone entry point. -/
def it_default_path : List String := [("outputs"), ("diagrams"), ("it_net_architecture.pdf")]

/-- One emitter run with fallible serialization: the directory-ensuring step
runs first; if the save step fails (disk full, permission denied, ...) the
emitter stops with failure and nothing is written, modelling a fatal raised
exception. -/
def run_emitter (elems : List Prim) (output_path : List String)
    (save_fails : Bool) (fs : FS) : FS × Bool :=
  let fs1 : FS := { fs with dirs := mkdir_parents (parentDir output_path) fs.dirs }
  if save_fails then (fs1, false)
  else ({ fs1 with files := savefig output_path elems fs1.files }, true)

/-- The `__main__` entry point: runs the DTNet emitter, then the ITNet
emitter.  A fatal error in the first call propagates as an uncaught exception,
so the second call only executes when the first succeeded. -/
def main_entry (dt_fails it_fails : Bool) (fs : FS) : FS × Bool :=
  let r1 := run_emitter DT.elements dt_default_path dt_fails fs
  if r1.2 then run_emitter IT.elements it_default_path it_fails r1.1
  else (r1.1, false)

/-! ### Connector-endpoint analysis (structural validity of the layout) -/

/-- Tests whether the point `(px, py)` lies on the boundary or in the interior
of the bounding box of a placed block element: the rectangle of a `rect`
(including the dashed recurrent bounding region) or the axis-aligned bounding
square of a `circle`.  Connectors and texts bound no region. -/
def ptInBlock (px py : ℤ) : Prim → Bool
  | Prim.rect x y w h _ _ _ _ =>
      decide (x ≤ px) && decide (px ≤ x + w) && decide (y ≤ py) && decide (py ≤ y + h)
  | Prim.circle cx cy r _ _ _ =>
      decide (cx - r ≤ px) && decide (px ≤ cx + r) &&
      decide (cy - r ≤ py) && decide (py ≤ cy + r)
  | _ => false

/-- The two endpoints of a connector primitive (arrow or line segment);
non-connector primitives have none. -/
def segmentEndpoints : Prim → List (ℤ × ℤ)
  | Prim.arrow x1 y1 x2 y2 _ _ => [(x1, y1), (x2, y2)]
  | Prim.line x1 y1 x2 y2 _ _ => [(x1, y1), (x2, y2)]
  | _ => []

/-- The named stage anchor points of the layout (input, projection, concat,
conv, residual, head, output), all on the main-flow line, as enumerated in the
data model of the specification. -/
def dt_stage_anchors : List (ℤ × ℤ) :=
  [(DT.input_x, DT.y), (DT.proj_x, DT.y), (DT.concat_x, DT.y), (units 650, DT.y),
   (DT.residual_x, DT.y), (DT.head_x, DT.y), (DT.output_x, DT.y)]

/-- The named stage anchor points of the ITNet layout. -/
def it_stage_anchors : List (ℤ × ℤ) :=
  [(IT.input_x, IT.y), (IT.proj_x, IT.y), (IT.concat_x, IT.y), (units 650, IT.y),
   (IT.residual_x, IT.y), (IT.head_x, IT.y), (IT.output_x, IT.y)]

/-- Tests whether a point lies in some block of `placed` or coincides with one
of the `anchors`. -/
def endpointAnchored (placed : List Prim) (anchors : List (ℤ × ℤ))
    (q : ℤ × ℤ) : Bool :=
  placed.any (ptInBlock q.1 q.2) || anchors.any (fun a => decide (a = q))

/-- The strict reading of the structural-validity invariant: walking the
emission sequence, every endpoint of every connector must lie in a block
emitted strictly earlier or coincide with a stage anchor.  `placed` is the
accumulator of already-emitted primitives. -/
def c3_strict (anchors : List (ℤ × ℤ)) : List Prim → List Prim → Bool
  | _, [] => true
  | placed, p :: rest =>
      (segmentEndpoints p).all (endpointAnchored placed anchors)
        && c3_strict anchors (placed ++ [p]) rest

/-- Routing points allowed in addition to block bounding boxes: points on the
fixed injection routing level `injY` between the input and output columns, and
points offset by the fixed border clearance 0.08 straight below the bottom
edge of some block, at its center column. -/
def routing_ok (l : List Prim) (injY lowX highX : ℤ) (q : ℤ × ℤ) : Bool :=
  (decide (q.2 = injY) && decide (lowX ≤ q.1) && decide (q.1 ≤ highX))
  || l.any (fun b => match b with
      | Prim.rect x y w _ _ _ _ _ =>
          decide (q.1 = x + w / 2) && decide (q.2 = y - units 8)
      | _ => false)

/-- The amended structural-validity invariant: every endpoint of every
connector lies in the bounding box of some block of the diagram (in any
position of the emission sequence), or coincides with a stage anchor, or is
one of the fixed routing points of `routing_ok`. -/
def c3_amended (l : List Prim) (anchors : List (ℤ × ℤ))
    (injY lowX highX : ℤ) : Bool :=
  l.all fun p => (segmentEndpoints p).all fun q =>
    l.any (ptInBlock q.1 q.2) || anchors.any (fun a => decide (a = q))
      || routing_ok l injY lowX highX q

/-! ### Landmarks of the emission order -/

/-- One characteristic primitive of each landmark of the claimed emission
order of the DTNet diagram: title, input block, projection block, recurrent
bounding region, concat marker, conv block, residual block, first segment of
the feedback-loop connector, head block, output block, first segment of the
injection-path connector, first annotation label. -/
def dt_landmarks : List Prim :=
  [Prim.text (units 700) (units 550) ("DTNet") 18 none,
   Prim.rect (DT.input_x - DT.bw / 2) (DT.y - DT.bh / 2) DT.bw DT.bh
     (COLORS ("input")) ("#424242") 25 false,
   Prim.rect (DT.proj_x - DT.bw / 2) (DT.y - DT.bh / 2) DT.bw DT.bh
     (COLORS ("projection")) ("#424242") 25 false,
   Prim.rect (DT.rec_x - DT.rec_w / 2) (DT.y - DT.rec_h / 2) DT.rec_w DT.rec_h
     ("#E8F5E9") (COLORS ("recur")) 25 true,
   Prim.circle DT.concat_x DT.y (units 22) (COLORS ("concat")) ("#424242") 15,
   Prim.rect (units 650 - units 110 / 2) (DT.y - units 80 / 2) (units 110) (units 80)
     (COLORS ("residual")) ("#424242") 25 false,
   Prim.rect (DT.residual_x - units 100 / 2) (DT.y - units 80 / 2) (units 100) (units 80)
     (COLORS ("residual")) ("#424242") 25 false,
   Prim.line DT.residual_x DT.residual_bottom DT.residual_x DT.loop_y_bottom
     (COLORS ("recur")) 20,
   Prim.rect (DT.head_x - DT.bw / 2) (DT.y - DT.bh / 2) DT.bw DT.bh
     (COLORS ("head")) ("#424242") 25 false,
   Prim.rect (DT.output_x - DT.bw / 2) (DT.y - DT.bh / 2) DT.bw DT.bh
     (COLORS ("output")) ("#424242") 25 false,
   Prim.line DT.input_x DT.input_bottom DT.input_x DT.inject_y (COLORS ("concat")) 25,
   Prim.text (units 300) (DT.inject_y - units 35) ("Input Injection (every iteration)")
     10 (some ("white"))]

/-- One characteristic primitive of each landmark of the claimed emission
order of the ITNet diagram (same geometry, ITNet strings). -/
def it_landmarks : List Prim :=
  [Prim.text (units 700) (units 550) ("ITNet") 18 none,
   Prim.rect (IT.input_x - IT.bw / 2) (IT.y - IT.bh / 2) IT.bw IT.bh
     (COLORS ("input")) ("#424242") 25 false,
   Prim.rect (IT.proj_x - IT.bw / 2) (IT.y - IT.bh / 2) IT.bw IT.bh
     (COLORS ("projection")) ("#424242") 25 false,
   Prim.rect (IT.rec_x - IT.rec_w / 2) (IT.y - IT.rec_h / 2) IT.rec_w IT.rec_h
     ("#E8F5E9") (COLORS ("recur")) 25 true,
   Prim.circle IT.concat_x IT.y (units 22) (COLORS ("concat")) ("#424242") 15,
   Prim.rect (units 650 - units 110 / 2) (IT.y - units 80 / 2) (units 110) (units 80)
     (COLORS ("residual")) ("#424242") 25 false,
   Prim.rect (IT.residual_x - units 100 / 2) (IT.y - units 80 / 2) (units 100) (units 80)
     (COLORS ("residual")) ("#424242") 25 false,
   Prim.line IT.residual_x IT.residual_bottom IT.residual_x IT.loop_y_bottom
     (COLORS ("recur")) 20,
   Prim.rect (IT.head_x - IT.bw / 2) (IT.y - IT.bh / 2) IT.bw IT.bh
     (COLORS ("head")) ("#424242") 25 false,
   Prim.rect (IT.output_x - IT.bw / 2) (IT.y - IT.bh / 2) IT.bw IT.bh
     (COLORS ("output")) ("#424242") 25 false,
   Prim.line IT.input_x IT.input_bottom IT.input_x IT.inject_y (COLORS ("concat")) 25,
   Prim.text (units 300) (IT.inject_y - units 35) ("Input Injection (every iteration)")
     10 (some ("white"))]

/-! ### Relabeling between the two diagrams -/

/-- The convergence-criterion annotation contained in the ITNet recurrent
label and absent from the DTNet one. -/
def convergence_criterion : String :=
  "until $\\|z^\x7b(k)\x7d - z^\x7b(k-1)\x7d\\| < \\epsilon$"

/-- Modelled from the spec: the label substitution distinguishing the two
diagram variants, as described by the specification (title, recurrent-block
label, residual sub-block count); every other string is kept. -/
def relabel_string (s : String) : String :=
  if s = "DTNet" then ("ITNet")
  else if s = DT.rec_label then IT.rec_label
  else if s = "2× ResBlock" then ("4× ResBlock")
  else s

/-- Pointwise action of `relabel_string` on a primitive: only the payload of a
text primitive changes, never any geometry, size or color. -/
def relabel_prim : Prim → Prim
  | Prim.text x y s fontsize color => Prim.text x y (relabel_string s) fontsize color
  | p => p

/-! ### Helper lemmas -/

/-- Looking up a path immediately after serializing to it yields the
serialized content. -/
theorem lookup_savefig (p : List String) (c : List Prim)
    (files : List (List String × List Prim)) :
    List.lookup p (savefig p c files) = some c := by
  simp [savefig, List.lookup]

/-- Folding `addDir` over directories already present changes nothing. -/
theorem foldl_addDir_of_mem (ds : List (List String)) (acc : List (List String))
    (h : ∀ x ∈ ds, x ∈ acc) : ds.foldl addDir acc = acc := by
  induction ds generalizing acc with
  | nil => rfl
  | cons a t ih =>
    have ha : addDir acc a = acc := by
      simp [addDir, h a (List.mem_cons_self a t)]
    simp only [List.foldl_cons, ha]
    exact ih acc fun x hx => h x (List.mem_cons_of_mem a hx)

/-- `addDir` never removes a directory. -/
theorem mem_addDir_of_mem {x : List String} (acc : List (List String))
    (d : List String) (h : x ∈ acc) : x ∈ addDir acc d := by
  unfold addDir
  split
  · exact h
  · exact List.mem_append_left _ h

/-- `addDir` establishes the directory it is given. -/
theorem self_mem_addDir (acc : List (List String)) (d : List String) :
    d ∈ addDir acc d := by
  unfold addDir
  split
  · assumption
  · exact List.mem_append_right _ (List.mem_singleton_self d)

/-- Folding `addDir` preserves existing directories. -/
theorem mem_foldl_addDir_of_mem (ds : List (List String)) (acc : List (List String))
    (x : List String) (h : x ∈ acc) : x ∈ ds.foldl addDir acc := by
  induction ds generalizing acc with
  | nil => exact h
  | cons a t ih => exact ih _ (mem_addDir_of_mem acc a h)

/-- Folding `addDir` establishes every directory of the folded list. -/
theorem mem_foldl_addDir_self (ds : List (List String)) (acc : List (List String))
    (x : List String) (h : x ∈ ds) : x ∈ ds.foldl addDir acc := by
  induction ds generalizing acc with
  | nil => cases h
  | cons a t ih =>
    rcases List.mem_cons.mp h with rfl | h2
    · exact mem_foldl_addDir_of_mem t _ x (self_mem_addDir acc x)
    · exact ih _ h2

/-! ### Claims -/

/-- Claim C1: for every fixed set of constants and variant parameters, two
invocations of the same diagram generator produce identical geometry.  The
primitive sequence recorded at the output path (every block position,
connector endpoint, waypoint, label position and color) is the same across
any two runs of the same emitter, whatever the output paths and prior
filesystem states: the composer is a pure function of its constants, with no
randomness or time dependency. -/
theorem generators_deterministic (p₁ p₂ : List String) (fs₁ fs₂ : FS) :
    List.lookup p₁ (generate_dt_net_diagram p₁ fs₁).files =
      List.lookup p₂ (generate_dt_net_diagram p₂ fs₂).files
    ∧ List.lookup p₁ (generate_it_net_diagram p₁ fs₁).files =
      List.lookup p₂ (generate_it_net_diagram p₂ fs₂).files := by
  constructor
  · rw [show (generate_dt_net_diagram p₁ fs₁).files = savefig p₁ DT.elements fs₁.files
        from rfl, lookup_savefig,
      show (generate_dt_net_diagram p₂ fs₂).files = savefig p₂ DT.elements fs₂.files
        from rfl, lookup_savefig]
  · rw [show (generate_it_net_diagram p₁ fs₁).files = savefig p₁ IT.elements fs₁.files
        from rfl, lookup_savefig,
      show (generate_it_net_diagram p₂ fs₂).files = savefig p₂ IT.elements fs₂.files
        from rfl, lookup_savefig]

/-- Claim C2, counterexample: in the DTNet diagram the horizontal segment of
the feedback-loop connector sits at `loop_y_bottom = y - rec_h / 2 + 0.15`,
which is NOT strictly less than the bottom edge `y - rec_h / 2` of the
recurrent-block bounding region (2.55 versus 2.40 in source units): the
segment lies above the bottom edge, inside the region, refuting the claim as
stated. -/
theorem loop_not_below_region_bottom :
    Prim.line DT.residual_x DT.loop_y_bottom DT.concat_arrow_x_green DT.loop_y_bottom
      (COLORS ("recur")) 20 ∈ DT.elements
    ∧ ¬ (DT.loop_y_bottom < DT.y - DT.rec_h / 2) := by decide

/-- Claim C2 (amended): in both diagrams the horizontal segment of the
feedback-loop connector lies strictly ABOVE the bottom edge of the
recurrent-block bounding region, at the fixed offset +0.15 inside the region
(`loop_y_bottom = y - rec_h / 2 + 0.15 > y - rec_h / 2`), and strictly below
the bottom edge of every solid (non-dashed) block of the diagram, so it
overlaps no block. -/
theorem loop_inside_region_above_bottom :
    Prim.line DT.residual_x DT.loop_y_bottom DT.concat_arrow_x_green DT.loop_y_bottom
      (COLORS ("recur")) 20 ∈ DT.elements
    ∧ DT.loop_y_bottom = DT.y - DT.rec_h / 2 + units 15
    ∧ DT.y - DT.rec_h / 2 < DT.loop_y_bottom
    ∧ (DT.elements.all fun p => match p with
        | Prim.rect _ yb _ _ _ _ _ dashed => dashed || decide (DT.loop_y_bottom < yb)
        | _ => true) = true
    ∧ Prim.line IT.residual_x IT.loop_y_bottom IT.concat_arrow_x_green IT.loop_y_bottom
      (COLORS ("recur")) 20 ∈ IT.elements
    ∧ IT.loop_y_bottom = IT.y - IT.rec_h / 2 + units 15
    ∧ IT.y - IT.rec_h / 2 < IT.loop_y_bottom
    ∧ (IT.elements.all fun p => match p with
        | Prim.rect _ yb _ _ _ _ _ dashed => dashed || decide (IT.loop_y_bottom < yb)
        | _ => true) = true := by decide

/-- Claim C3, counterexample: the strict structural-validity check fails on
both generators.  The first failure is already the very first arrow of the
main flow: its head endpoint `(2.8 - bw / 2, y)` (the left edge of the
projection block) is emitted at position 4 of the sequence, when only the
title and the input block have been placed, so it lies in no earlier block and
coincides with no stage anchor; the injection-path endpoints 0.08 below the
input and prediction blocks fail even against the full block set. -/
theorem connector_strict_anchoring_fails :
    c3_strict dt_stage_anchors [] DT.elements = false
    ∧ c3_strict it_stage_anchors [] IT.elements = false
    ∧ (DT.elements.drop 4).head? =
        some (draw_arrow (DT.input_x + DT.bw / 2) DT.y (units 280 - DT.bw / 2) DT.y)
    ∧ endpointAnchored (DT.elements.take 4) dt_stage_anchors
        (units 280 - DT.bw / 2, DT.y) = false
    ∧ (DT.elements.all fun p => ptInBlock DT.input_x (DT.y - DT.bh / 2 - units 8) p
          = false) = true := by decide

/-- Claim C3 (amended): every endpoint of every connector (straight arrow or
segment of a routed line) of either diagram lies on the boundary or in the
interior of the bounding box of a block of the diagram (whatever its position
in the emission sequence), or coincides with a named stage anchor, or is one
of the fixed routing points of the layout: a point on the injection routing
level `inject_y` between the input and output columns, or the fixed border
clearance point 0.08 below the bottom edge of a block at its center column.
No endpoint is underived from the placed blocks and fixed constants. -/
theorem connector_endpoints_anchored :
    c3_amended DT.elements dt_stage_anchors DT.inject_y DT.input_x DT.output_x = true
    ∧ c3_amended IT.elements it_stage_anchors IT.inject_y IT.input_x IT.output_x = true := by
  decide

/-- Claim C4: invoking the DTNet emitter with any output path records a
diagram at that path whose title text is DTNet and whose residual block is
subtitled with 2 sub-blocks, and invoking the ITNet emitter records at its
path a diagram whose title text is ITNet, whose recurrent-block label includes
the convergence-criterion annotation, and whose residual block is subtitled
with 4 sub-blocks. -/
theorem emitters_write_titled_diagrams (p₁ p₂ : List String) (fs₁ fs₂ : FS) :
    List.lookup p₁ (generate_dt_net_diagram p₁ fs₁).files = some DT.elements
    ∧ Prim.text (units 700) (units 550) ("DTNet") 18 none ∈ DT.elements
    ∧ Prim.text DT.residual_x (DT.y - units 20) ("2× ResBlock") 10
        (some (COLORS ("gray"))) ∈ DT.elements
    ∧ List.lookup p₂ (generate_it_net_diagram p₂ fs₂).files = some IT.elements
    ∧ Prim.text (units 700) (units 550) ("ITNet") 18 none ∈ IT.elements
    ∧ IT.rec_label = "Recurrent Block  (× $K$ iters, " ++ convergence_criterion ++ ")"
    ∧ Prim.text IT.rec_x (IT.y + IT.rec_h / 2 + units 20) IT.rec_label 12
        (some (COLORS ("recur"))) ∈ IT.elements
    ∧ Prim.text IT.residual_x (IT.y - units 20) ("4× ResBlock") 10
        (some (COLORS ("gray"))) ∈ IT.elements := by
  refine ⟨?_, by decide, by decide, ?_, by decide, by decide, by decide, by decide⟩
  · exact lookup_savefig p₁ DT.elements fs₁.files
  · exact lookup_savefig p₂ IT.elements fs₂.files

/-- Claim C5: each generator emits the landmark elements of its diagram in the
claimed relative order: title, input block, projection block, recurrent
bounding region, injection/concat marker, conv block, residual block,
feedback-loop connector, head block, output block, injection-path connector,
annotation labels.  The landmark sequence is an order-preserving subsequence
of the emitted primitive sequence (the simple flow arrows interleave between
landmarks). -/
theorem emission_follows_claimed_order :
    dt_landmarks.Sublist DT.elements ∧ it_landmarks.Sublist IT.elements := by decide

/-- Claim C6, counterexample: when the first emitter (DTNet) fails fatally,
the entry point aborts before the second emitter runs, so the ITNet output is
NOT produced: starting from an empty filesystem with the DTNet save failing
and the ITNet save healthy, the entry point reports failure and no file exists
at the ITNet output path, refuting the claim that the other variant is
unaffected. -/
theorem first_emitter_failure_starves_second :
    (main_entry true false ⟨[], []⟩).2 = false
    ∧ List.lookup it_default_path (main_entry true false ⟨[], []⟩).1.files = none := by
  decide

/-- Claim C6 (amended): failure isolation holds only forward: when the first
emitter succeeds and the second fails, the first diagram is already on disk
and is unaffected; but a fatal error in the first emitter propagates out of
the entry point before the second emitter runs, leaving the file store exactly
as it was. -/
theorem emitter_failure_isolation (fs : FS) (b : Bool) :
    List.lookup dt_default_path (main_entry false true fs).1.files = some DT.elements
    ∧ (main_entry true b fs).1.files = fs.files := by
  constructor
  · simp [main_entry, run_emitter, savefig, List.lookup]
  · rfl

/-- Claim C7: for every output path whose parent directory (with all its
ancestors) already exists, the directory-ensuring step succeeds and leaves the
directory tree unchanged, and running the directory-ensuring step twice on the
same path has the same effect as running it once. -/
theorem mkdir_parents_noop_and_idempotent (output_path : List String)
    (dirs : List (List String)) (q : List String) (ds : List (List String))
    (h : ∀ a ∈ (parentDir output_path).inits, a ∈ dirs) :
    mkdir_parents (parentDir output_path) dirs = dirs
    ∧ mkdir_parents (parentDir q) (mkdir_parents (parentDir q) ds) =
        mkdir_parents (parentDir q) ds := by
  constructor
  · exact foldl_addDir_of_mem _ _ h
  · exact foldl_addDir_of_mem _ _ fun x hx =>
      mem_foldl_addDir_self (parentDir q).inits ds x hx

/-- Claim C7, witness: concrete instantiation with the parent directory
already present. -/
theorem mkdir_parents_noop_and_idempotent_witness :
    mkdir_parents (parentDir [("out"), ("dt.pdf")]) [[], [("out")]] = [[], [("out")]]
    ∧ mkdir_parents (parentDir [("out"), ("dt.pdf")])
        (mkdir_parents (parentDir [("out"), ("dt.pdf")]) [[], [("x")]]) =
      mkdir_parents (parentDir [("out"), ("dt.pdf")]) [[], [("x")]] :=
  mkdir_parents_noop_and_idempotent [("out"), ("dt.pdf")] [[], [("out")]]
    [("out"), ("dt.pdf")] [[], [("x")]] (by decide)

/-- Claim C8: the two generators emit element-for-element identical geometry,
in the same order, differing only in three text strings (the diagram title,
the recurrent-block label, and the residual-block subtitle): mapping the label
substitution over the DTNet sequence yields exactly the ITNet sequence, and
exactly 3 of the pointwise-paired elements differ. -/
theorem diagrams_differ_only_in_three_labels :
    IT.elements = DT.elements.map relabel_prim
    ∧ ((DT.elements.zip IT.elements).countP fun pr => decide (pr.1 ≠ pr.2)) = 3 := by
  decide

/-- Claim C9: in both diagrams the horizontal segment of the injection-path
connector lies at `inject_y = y - 1.8`, strictly below the bottom edge
`y - rec_h / 2` of the recurrent bounding region and strictly below the bottom
edge of every block, and its two vertical risers (to the concat marker and to
the prediction block) run upward, entering their targets from below: the
concat riser ends at the bottom tangent level of the concat circle within the
circle span, and the output riser ends at the clearance point below the
prediction block bottom edge at its center column. -/
theorem injection_path_below_and_rising :
    DT.inject_y = DT.y - units 180
    ∧ DT.inject_y < DT.y - DT.rec_h / 2
    ∧ (DT.elements.all fun p => match p with
        | Prim.rect _ yb _ _ _ _ _ _ => decide (DT.inject_y < yb)
        | _ => true) = true
    ∧ Prim.line DT.input_x DT.inject_y DT.output_x DT.inject_y
        (COLORS ("concat")) 25 ∈ DT.elements
    ∧ Prim.arrow DT.concat_arrow_x_purple DT.inject_y DT.concat_arrow_x_purple
        (DT.y - units 22) (COLORS ("concat")) 25 ∈ DT.elements
    ∧ DT.inject_y < DT.y - units 22
    ∧ DT.concat_x - units 22 ≤ DT.concat_arrow_x_purple
    ∧ DT.concat_arrow_x_purple ≤ DT.concat_x + units 22
    ∧ Prim.arrow DT.output_x DT.inject_y DT.output_x DT.output_bottom
        (COLORS ("concat")) 25 ∈ DT.elements
    ∧ DT.inject_y < DT.output_bottom
    ∧ DT.output_bottom < DT.y - DT.bh / 2
    ∧ IT.inject_y = IT.y - units 180
    ∧ IT.inject_y < IT.y - IT.rec_h / 2
    ∧ (IT.elements.all fun p => match p with
        | Prim.rect _ yb _ _ _ _ _ _ => decide (IT.inject_y < yb)
        | _ => true) = true
    ∧ Prim.line IT.input_x IT.inject_y IT.output_x IT.inject_y
        (COLORS ("concat")) 25 ∈ IT.elements
    ∧ Prim.arrow IT.concat_arrow_x_purple IT.inject_y IT.concat_arrow_x_purple
        (IT.y - units 22) (COLORS ("concat")) 25 ∈ IT.elements
    ∧ IT.inject_y < IT.y - units 22
    ∧ IT.concat_x - units 22 ≤ IT.concat_arrow_x_purple
    ∧ IT.concat_arrow_x_purple ≤ IT.concat_x + units 22
    ∧ Prim.arrow IT.output_x IT.inject_y IT.output_x IT.output_bottom
        (COLORS ("concat")) 25 ∈ IT.elements
    ∧ IT.inject_y < IT.output_bottom
    ∧ IT.output_bottom < IT.y - IT.bh / 2 := by decide

/-- Claim C10, counterexample: an empty subtitle is a given subtitle, yet the
Python truthiness test `if subtitle:` treats it like an absent one, so the
title is drawn centered at the anchor instead of raised to `(x, y + 0.15)`,
refuting the claim as stated at the concrete input `subtitle = some ""`. -/
theorem draw_block_empty_subtitle_counterexample :
    draw_block 0 0 (units 200) (units 100) ("T") (some ("")) ("c") =
      [Prim.rect (0 - units 200 / 2) (0 - units 100 / 2) (units 200) (units 100)
        ("c") ("#424242") 25 false,
       Prim.text 0 0 ("T") 13 (some (COLORS ("text")))]
    ∧ Prim.text 0 (0 + units 15) ("T") 13 (some (COLORS ("text"))) ∉
        draw_block 0 0 (units 200) (units 100) ("T") (some ("")) ("c") := by decide

/-- Claim C10 (amended): every block placed by the block-drawing operation
with anchor `(x, y)`, width `w` and height `h` emits its rectangle with
lower-left corner `(x - w / 2, y - h / 2)`, so that (for widths and heights on
the even grid, where halving is exact, as in all invocations of the source)
the rectangle spans `[x - w / 2, x + w / 2]` horizontally and
`[y - h / 2, y + h / 2]` vertically and is centered on the anchor; when no
subtitle or an empty subtitle is given, the title text is centered exactly at
`(x, y)`, and when a non-empty subtitle is given the title is placed at
`(x, y + 0.15)` and the subtitle at `(x, y - 0.2)`. -/
theorem draw_block_geometry (x y w h : ℤ) (t : String) (sub : Option String)
    (c : String) (hw : 2 ∣ w) (hh : 2 ∣ h) :
    (draw_block x y w h t sub c).head? =
      some (Prim.rect (x - w / 2) (y - h / 2) w h c ("#424242") 25 false)
    ∧ (x - w / 2) + w = x + w / 2
    ∧ (y - h / 2) + h = y + h / 2
    ∧ (x - w / 2) + w / 2 = x
    ∧ (y - h / 2) + h / 2 = y
    ∧ (sub.getD ("") = "" →
        (draw_block x y w h t sub c).tail =
          [Prim.text x y t 13 (some (COLORS ("text")))])
    ∧ ∀ s : String, sub = some s → s ≠ "" →
        (draw_block x y w h t sub c).tail =
          [Prim.text x (y + units 15) t 13 (some (COLORS ("text"))),
           Prim.text x (y - units 20) s 10 (some (COLORS ("gray")))] := by
  refine ⟨rfl, by omega, by omega, by omega, by omega, ?_, ?_⟩
  · intro hs
    simp [draw_block, hs]
  · intro s hsub hne
    subst hsub
    simp [draw_block, hne]

/-- Claim C10, witness: concrete instantiation with a non-empty subtitle. -/
theorem draw_block_geometry_witness :
    (draw_block 0 0 (units 200) (units 100) ("T") (some ("S")) ("c")).tail =
      [Prim.text 0 (0 + units 15) ("T") 13 (some (COLORS ("text"))),
       Prim.text 0 (0 - units 20) ("S") 10 (some (COLORS ("gray")))] :=
  (draw_block_geometry 0 0 (units 200) (units 100) ("T") (some ("S")) ("c")
    (by decide) (by decide)).2.2.2.2.2.2 ("S") rfl (by decide)

end RobustMaze
